import Mathlib

/-!
Verification development for the PrayerTimes repository
(`src/Pages/PrayerTimesTamilNadu.py`).

The Python `PrayTimes` class is shallowly embedded here.  Machine floats are
modelled as rationals extended with an explicit NaN (`PF`); trigonometric
functions are kept abstract (a `Trig` structure of function fields), since no
claim depends on their concrete values; Python dictionaries with string keys
are modelled as functions `String → Option α` (`Dict`), with ordered
association lists where iteration order matters; fallible operations
(dictionary `KeyError`, `float(...)` `ValueError`, attribute errors) return
`Except String`.
-/

namespace PrayerTimes

/-- A Python float value: either NaN or a (rational) number.  Infinities do
not arise in this program and are not modelled. -/
inductive PF where
  | nan : PF
  | num : ℚ → PF
deriving DecidableEq, Repr

/-- Addition; NaN propagates (IEEE semantics as exposed by Python). -/
def PF.add : PF → PF → PF
  | .num a, .num b => .num (a + b)
  | _, _ => .nan

/-- Subtraction; NaN propagates. -/
def PF.sub : PF → PF → PF
  | .num a, .num b => .num (a - b)
  | _, _ => .nan

/-- Multiplication; NaN propagates. -/
def PF.mul : PF → PF → PF
  | .num a, .num b => .num (a * b)
  | _, _ => .nan

/-- Division; NaN propagates.  (For a zero divisor Python raises
`ZeroDivisionError`; every division in the embedded code has a nonzero
constant divisor, except inside the abstract trigonometric argument where the
model uses the rational convention `q / 0 = 0`.) -/
def PF.div : PF → PF → PF
  | .num a, .num b => .num (a / b)
  | _, _ => .nan

/-- Negation; NaN propagates. -/
def PF.neg : PF → PF
  | .num a => .num (-a)
  | .nan => .nan

/-- `abs`; NaN propagates. -/
def PF.pabs : PF → PF
  | .num a => .num |a|
  | .nan => .nan

instance : Add PF := ⟨PF.add⟩
instance : Sub PF := ⟨PF.sub⟩
instance : Mul PF := ⟨PF.mul⟩
instance : Div PF := ⟨PF.div⟩
instance : Neg PF := ⟨PF.neg⟩

/-- Python `>` on floats: any comparison with NaN is `False`. -/
def PF.gt : PF → PF → Bool
  | .num a, .num b => decide (b < a)
  | _, _ => false

/-- `math.isnan`. -/
def PF.isnan : PF → Bool
  | .nan => true
  | .num _ => false

/-- Numeric core of `PrayTimes.fix`: `a - mode*floor(a/mode)`, plus `mode`
if negative (source lines 373-377, the non-NaN branch). -/
def fixQ (a mode : ℚ) : ℚ :=
  let r := a - mode * ((Int.floor (a / mode) : ℤ) : ℚ)
  if r < 0 then r + mode else r

/-- `PrayTimes.fix(a, mode)`: NaN is returned unchanged, otherwise the
value is normalized by `fixQ`. -/
def fix : PF → ℚ → PF
  | .nan, _ => .nan
  | .num q, mode => .num (fixQ q mode)

/-- `PrayTimes.fixangle`. -/
def fixangle (a : PF) : PF := fix a 360

/-- `PrayTimes.fixhour`. -/
def fixhour (a : PF) : PF := fix a 24

/-- `PrayTimes.timeDiff(time1, time2) = fixhour(time2 - time1)`. -/
def timeDiff (time1 time2 : PF) : PF := fixhour (time2 - time1)

/-- A value stored in a `PrayTimes` parameter/settings dictionary: Python
strings or numbers (ints and floats collapsed to `ℚ`). -/
inductive Param where
  | str : String → Param
  | num : ℚ → Param
deriving DecidableEq, Repr

/-- Characters matched by the character class `[0-9.+-]` of the regex in
`PrayTimes.eval`. -/
def isTokChar (c : Char) : Bool := c.isDigit || c = '.' || c = '+' || c = '-'

/-- The leading token kept by `re.split('[^0-9.+-]', s, 1)[0]`: the maximal
prefix of characters drawn from `[0-9.+-]`. -/
def leadingToken (s : String) : String := String.mk (s.toList.takeWhile isTokChar)

/-- Value of a list of decimal digit characters. -/
def digitsNat (l : List Char) : ℕ := l.foldl (fun a c => 10 * a + (c.toNat - 48)) 0

/-- Python `float(s)` restricted to strings over the alphabet `[0-9.+-]`
(the only strings `eval` passes to it): an optional sign followed by
`digits`, `digits.digits*`, or `.digits+`.  `none` models `ValueError`. -/
def parsePyFloat (s : String) : Option ℚ :=
  let l := s.toList
  let sgn : Bool × List Char :=
    match l with
    | '+' :: rest => (false, rest)
    | '-' :: rest => (true, rest)
    | _ => (false, l)
  let intPart := sgn.2.takeWhile Char.isDigit
  let rest := sgn.2.dropWhile Char.isDigit
  let signed : ℚ → ℚ := fun q => if sgn.1 then -q else q
  match rest with
  | [] => if intPart.isEmpty then none else some (signed ((digitsNat intPart : ℕ) : ℚ))
  | '.' :: frac =>
      if frac.all Char.isDigit then
        if intPart.isEmpty && frac.isEmpty then none
        else some (signed (((digitsNat intPart : ℕ) : ℚ) +
          ((digitsNat frac : ℕ) : ℚ) / (10 ^ frac.length)))
      else none
  | _ => none

/-- `PrayTimes.eval(st)` (source lines 348-350): `str(st)` is split at the
first character outside `[0-9.+-]`; an empty leading token yields `0`,
otherwise the token goes through `float(...)`, which raises `ValueError`
on tokens that are not valid float literals.  For a numeric argument,
`str` renders a plain decimal numeral that parses back to the same value,
so that case returns the number directly. -/
def eval (st : Param) : Except String ℚ :=
  match st with
  | .num q => Except.ok q
  | .str s =>
    let val := leadingToken s
    if val = "" then Except.ok 0
    else
      match parsePyFloat val with
      | some q => Except.ok q
      | none => Except.error "ValueError"

/-- `PrayTimes.isMin(arg)`: the argument is a string containing `"min"`. -/
def isMin (arg : Param) : Bool :=
  match arg with
  | .str s => (s.splitOn "min").length > 1
  | .num _ => false

/-- A Python dictionary with string keys, viewed as a partial map. -/
def Dict (α : Type) : Type := String → Option α

/-- Item assignment `d[k] = v`. -/
def Dict.set {α : Type} (m : Dict α) (k : String) (v : α) : Dict α :=
  fun k' => if k' = k then some v else m k'

/-- `d.update(pairs)`: key-wise merge of an (ordered) list of pairs. -/
def Dict.update {α : Type} (m : Dict α) (pairs : List (String × α)) : Dict α :=
  pairs.foldl (fun acc p => acc.set p.1 p.2) m

/-- Dictionary built from an association list. -/
def Dict.ofList {α : Type} (l : List (String × α)) : Dict α :=
  fun k => l.lookup k

/-- Subscript lookup `d[k]`; a missing key models `KeyError`. -/
def Dict.get {α : Type} (m : Dict α) (k : String) : Except String α :=
  match m k with
  | some v => Except.ok v
  | none => Except.error ("KeyError: " ++ k)

/-- The degree-based math library used by the calculator (source lines
359-368 plus `math.sqrt`).  The claims never depend on concrete
trigonometric values, so the functions are abstract fields; NaN behaviour
is whatever the field functions do.  `arccos` returns `Except` because
`math.acos` raises `ValueError` outside `[-1, 1]` — the one exception the
source handles (in `sunAngleTime`). -/
structure Trig where
  tsin : PF → PF
  tcos : PF → PF
  ttan : PF → PF
  arcsin : PF → PF
  arccos : PF → Except String PF
  arctan : PF → PF
  arccot : PF → PF
  arctan2 : PF → PF → PF
  sqrt : ℚ → ℚ

/-- The instance attributes read during one `computeTimes` run (set by
`getTimes` immediately before it, source lines 141-149). -/
structure Ctx where
  settings : Dict Param
  offset : Dict ℚ
  timeFormat : String
  lat : ℚ
  lng : ℚ
  elv : ℚ
  timeZone : ℚ
  jDate : ℚ

/-- `PrayTimes.sunPosition(jd)` (source lines 196-209): declination and
equation of time of the low-precision solar model. -/
def sunPosition (T : Trig) (jd : PF) : PF × PF :=
  let D := jd - PF.num 2451545
  let g := fixangle (PF.num 357.529 + PF.num 0.98560028 * D)
  let q := fixangle (PF.num 280.459 + PF.num 0.98564736 * D)
  let L := fixangle (q + PF.num 1.915 * T.tsin g + PF.num 0.020 * T.tsin (PF.num 2 * g))
  let e := PF.num 23.439 - PF.num 0.00000036 * D
  let RA := T.arctan2 (T.tcos e * T.tsin L) (T.tcos L) / PF.num 15
  let eqt := q / PF.num 15 - fixhour RA
  let decl := T.arcsin (T.tsin e * T.tsin L)
  (decl, eqt)

/-- `PrayTimes.midDay(time)` (source lines 173-175). -/
def midDay (T : Trig) (c : Ctx) (time : PF) : PF :=
  let eqt := (sunPosition T (PF.num c.jDate + time)).2
  fixhour (PF.num 12 - eqt)

/-- `PrayTimes.sunAngleTime(angle, time, direction)` (source lines 178-186):
the `try`/`except ValueError` around the body turns an out-of-domain
`arccos` into NaN. -/
def sunAngleTime (T : Trig) (c : Ctx) (angle : PF) (time : PF) (ccw : Bool) : PF :=
  let decl := (sunPosition T (PF.num c.jDate + time)).1
  let noon := midDay T c time
  match T.arccos ((-(T.tsin angle) - T.tsin decl * T.tsin (PF.num c.lat)) /
      (T.tcos decl * T.tcos (PF.num c.lat))) with
  | Except.ok a =>
      let t := PF.num (1 / 15) * a
      noon + (if ccw then -t else t)
  | Except.error _ => PF.nan

/-- `PrayTimes.asrTime(factor, time)` (source lines 189-192). -/
def asrTime (T : Trig) (c : Ctx) (factor : ℚ) (time : PF) : PF :=
  let decl := (sunPosition T (PF.num c.jDate + time)).1
  let angle := -(T.arccot (PF.num factor + T.ttan (PF.pabs (PF.num c.lat - decl))))
  sunAngleTime T c angle time false

/-- `PrayTimes.julian(year, month, day)` (source lines 213-219). -/
def julian (year month day : ℤ) : ℚ :=
  let ym : ℤ × ℤ := if month ≤ 2 then (year - 1, month + 12) else (year, month)
  let A : ℤ := Int.floor ((ym.1 : ℚ) / 100)
  let B : ℤ := 2 - A + Int.floor ((A : ℚ) / 4)
  ((Int.floor ((365.25 : ℚ) * ((ym.1 : ℚ) + 4716)) : ℤ) : ℚ) +
    ((Int.floor ((30.6001 : ℚ) * ((ym.2 : ℚ) + 1)) : ℤ) : ℚ) +
    (day : ℚ) + (B : ℚ) - 1524.5

/-- `PrayTimes.riseSetAngle(elevation)` (source lines 290-292).  (The
`elevation == None` guard never fires: `getTimes` always stores a number.) -/
def riseSetAngle (T : Trig) (elevation : ℚ) : ℚ :=
  0.833 + 0.0347 * T.sqrt elevation

/-- `PrayTimes.asrFactor(asrParam)` (source lines 285-287). -/
def asrFactor (asrParam : Param) : Except String ℚ :=
  if asrParam = Param.str "Standard" then Except.ok 1
  else if asrParam = Param.str "Hanafi" then Except.ok 2
  else eval asrParam

/-- The working dictionary of the solver: the eight event keys present from
initialization through `adjustTimes` (source line 245-248). -/
structure PTimes where
  imsak : PF
  fajr : PF
  sunrise : PF
  dhuhr : PF
  asr : PF
  sunset : PF
  maghrib : PF
  isha : PF
deriving DecidableEq, Repr

/-- `PrayTimes.dayPortion(times)` (source lines 335-338). -/
def dayPortion (t : PTimes) : PTimes :=
  { imsak := t.imsak / PF.num 24, fajr := t.fajr / PF.num 24,
    sunrise := t.sunrise / PF.num 24, dhuhr := t.dhuhr / PF.num 24,
    asr := t.asr / PF.num 24, sunset := t.sunset / PF.num 24,
    maghrib := t.maghrib / PF.num 24, isha := t.isha / PF.num 24 }

/-- `PrayTimes.computePrayerTimes(times)` (source lines 226-241). -/
def computePrayerTimes (T : Trig) (c : Ctx) (times : PTimes) : Except String PTimes := do
  let times := dayPortion times
  let pImsak ← Dict.get c.settings "imsak"
  let aImsak ← eval pImsak
  let pFajr ← Dict.get c.settings "fajr"
  let aFajr ← eval pFajr
  let pAsr ← Dict.get c.settings "asr"
  let fAsr ← asrFactor pAsr
  let pMaghrib ← Dict.get c.settings "maghrib"
  let aMaghrib ← eval pMaghrib
  let pIsha ← Dict.get c.settings "isha"
  let aIsha ← eval pIsha
  let imsak := sunAngleTime T c (PF.num aImsak) times.imsak true
  let fajr := sunAngleTime T c (PF.num aFajr) times.fajr true
  let sunrise := sunAngleTime T c (PF.num (riseSetAngle T c.elv)) times.sunrise true
  let dhuhr := midDay T c times.dhuhr
  let asr := asrTime T c fAsr times.asr
  let sunset := sunAngleTime T c (PF.num (riseSetAngle T c.elv)) times.sunset false
  let maghrib := sunAngleTime T c (PF.num aMaghrib) times.maghrib false
  let isha := sunAngleTime T c (PF.num aIsha) times.isha false
  pure { imsak := imsak, fajr := fajr, sunrise := sunrise, dhuhr := dhuhr,
         asr := asr, sunset := sunset, maghrib := maghrib, isha := isha }

/-- `PrayTimes.nightPortion(angle, night)` (source lines 325-332); `method`
is the live `settings['highLats']` value. -/
def nightPortion (method : Param) (angle : ℚ) (night : PF) : PF :=
  let portion : ℚ := 1 / 2
  let portion := if method = Param.str "AngleBased" then 1 / 60 * angle else portion
  let portion := if method = Param.str "OneSeventh" then (1 / 7 : ℚ) else portion
  PF.num portion * night

/-- `PrayTimes.adjustHLTime(time, base, angle, night, direction)` (source
lines 317-322); `method` is the live `settings['highLats']` value read by
`nightPortion`. -/
def adjustHLTime (method : Param) (time base : PF) (angle : ℚ) (night : PF)
    (ccw : Bool) : PF :=
  let portion := nightPortion method angle night
  let diff := if ccw then timeDiff time base else timeDiff base time
  if time.isnan || PF.gt diff portion then
    base + (if ccw then -portion else portion)
  else time

/-- `PrayTimes.adjustHighLats(times)` (source lines 307-314). -/
def adjustHighLats (c : Ctx) (times : PTimes) : Except String PTimes := do
  let hl ← Dict.get c.settings "highLats"
  let pImsak ← Dict.get c.settings "imsak"
  let aImsak ← eval pImsak
  let pFajr ← Dict.get c.settings "fajr"
  let aFajr ← eval pFajr
  let pIsha ← Dict.get c.settings "isha"
  let aIsha ← eval pIsha
  let pMaghrib ← Dict.get c.settings "maghrib"
  let aMaghrib ← eval pMaghrib
  let nightTime := timeDiff times.sunset times.sunrise
  let times := { times with
    imsak := adjustHLTime hl times.imsak times.sunrise aImsak nightTime true }
  let times := { times with
    fajr := adjustHLTime hl times.fajr times.sunrise aFajr nightTime true }
  let times := { times with
    isha := adjustHLTime hl times.isha times.sunset aIsha nightTime false }
  let times := { times with
    maghrib := adjustHLTime hl times.maghrib times.sunset aMaghrib nightTime false }
  pure times

/-- `PrayTimes.adjustTimes(times)` (source lines 263-282). -/
def adjustTimes (c : Ctx) (times : PTimes) : Except String PTimes := do
  let tzAdjust := PF.num (c.timeZone - c.lng / 15)
  let times : PTimes :=
    { imsak := times.imsak + tzAdjust, fajr := times.fajr + tzAdjust,
      sunrise := times.sunrise + tzAdjust, dhuhr := times.dhuhr + tzAdjust,
      asr := times.asr + tzAdjust, sunset := times.sunset + tzAdjust,
      maghrib := times.maghrib + tzAdjust, isha := times.isha + tzAdjust }
  let pHigh ← Dict.get c.settings "highLats"
  let times ← if pHigh ≠ Param.str "None" then adjustHighLats c times else pure times
  let pImsak ← Dict.get c.settings "imsak"
  let times ←
    if isMin pImsak then do
      let v ← eval pImsak
      pure { times with imsak := times.fajr - PF.num (v / 60) }
    else pure times
  let pMaghrib ← Dict.get c.settings "maghrib"
  let times ←
    if isMin pMaghrib then do
      let v ← eval pMaghrib
      pure { times with maghrib := times.sunset - PF.num (v / 60) }
    else pure times
  let pIsha ← Dict.get c.settings "isha"
  let times ←
    if isMin pIsha then do
      let v ← eval pIsha
      pure { times with isha := times.maghrib - PF.num (v / 60) }
    else pure times
  let pDhuhr ← Dict.get c.settings "dhuhr"
  let vDhuhr ← eval pDhuhr
  pure { times with dhuhr := times.dhuhr + PF.num (vDhuhr / 60) }

/-- `PrayTimes.invalidTime` (source line 87). -/
def invalidTime : String := "-----"

/-- `PrayTimes.timeSuffixes` (source line 86). -/
def timeSuffixes : List String := ["am", "pm"]

/-- Result of `getFormattedTime`: a string, or (under the `'Float'` format)
the raw numeric value. -/
inductive FmtVal where
  | str : String → FmtVal
  | float : PF → FmtVal
deriving DecidableEq, Repr

/-- Zero-padded `"%02d"` rendering of a (nonnegative, two-digit) integer. -/
def pad2 (n : ℤ) : String :=
  if 0 ≤ n && n < 10 then "0" ++ toString n else toString n

/-- `PrayTimes.getFormattedTime(time, format, suffixes)` (source lines
153-167).  List indexing into `suffixes` is modelled with a default (the
pipeline always passes the two-element default list, so the index is in
bounds there). -/
def getFormattedTime (time : PF) (format : String)
    (suffixes : List String := timeSuffixes) : FmtVal :=
  match time with
  | .nan => FmtVal.str invalidTime
  | .num q =>
    if format = "Float" then FmtVal.float (PF.num q)
    else
      let t := fixQ (q + 1 / 2 / 60) 24
      let hours : ℤ := Int.floor t
      let minutes : ℤ := Int.floor ((t - (hours : ℚ)) * 60)
      let sfx := if format = "12h" then suffixes.getD (if hours < 12 then 0 else 1) "" else ""
      let formatted :=
        if format = "24h" then pad2 hours ++ ":" ++ pad2 minutes
        else toString ((hours + 11) % 12 + 1) ++ ":" ++ pad2 minutes
      FmtVal.str (formatted ++ sfx)

/-- The nine-event dictionary after `midnight` is added (source lines
253-257). -/
structure Times9 where
  imsak : PF
  fajr : PF
  sunrise : PF
  dhuhr : PF
  asr : PF
  sunset : PF
  maghrib : PF
  isha : PF
  midnight : PF
deriving DecidableEq, Repr

/-- The formatted nine-event result returned by `computeTimes`. -/
structure FmtTimes where
  imsak : FmtVal
  fajr : FmtVal
  sunrise : FmtVal
  dhuhr : FmtVal
  asr : FmtVal
  sunset : FmtVal
  maghrib : FmtVal
  isha : FmtVal
  midnight : FmtVal
deriving DecidableEq, Repr

/-- `PrayTimes.tuneTimes(times)` (source lines 295-298): add
`offset[name]/60` to every event; a missing offset key is a `KeyError`. -/
def tuneTimes (c : Ctx) (t : Times9) : Except String Times9 := do
  let oImsak ← Dict.get c.offset "imsak"
  let oFajr ← Dict.get c.offset "fajr"
  let oSunrise ← Dict.get c.offset "sunrise"
  let oDhuhr ← Dict.get c.offset "dhuhr"
  let oAsr ← Dict.get c.offset "asr"
  let oSunset ← Dict.get c.offset "sunset"
  let oMaghrib ← Dict.get c.offset "maghrib"
  let oIsha ← Dict.get c.offset "isha"
  let oMidnight ← Dict.get c.offset "midnight"
  pure { imsak := t.imsak + PF.num (oImsak / 60),
         fajr := t.fajr + PF.num (oFajr / 60),
         sunrise := t.sunrise + PF.num (oSunrise / 60),
         dhuhr := t.dhuhr + PF.num (oDhuhr / 60),
         asr := t.asr + PF.num (oAsr / 60),
         sunset := t.sunset + PF.num (oSunset / 60),
         maghrib := t.maghrib + PF.num (oMaghrib / 60),
         isha := t.isha + PF.num (oIsha / 60),
         midnight := t.midnight + PF.num (oMidnight / 60) }

/-- `PrayTimes.modifyFormats(times)` (source lines 301-304). -/
def modifyFormats (c : Ctx) (t : Times9) : FmtTimes :=
  { imsak := getFormattedTime t.imsak c.timeFormat,
    fajr := getFormattedTime t.fajr c.timeFormat,
    sunrise := getFormattedTime t.sunrise c.timeFormat,
    dhuhr := getFormattedTime t.dhuhr c.timeFormat,
    asr := getFormattedTime t.asr c.timeFormat,
    sunset := getFormattedTime t.sunset c.timeFormat,
    maghrib := getFormattedTime t.maghrib c.timeFormat,
    isha := getFormattedTime t.isha c.timeFormat,
    midnight := getFormattedTime t.midnight c.timeFormat }

/-- `PrayTimes.numIterations` (source line 89). -/
def numIterations : ℕ := 1

/-- `PrayTimes.computeTimes()` (source lines 244-260). -/
def computeTimes (T : Trig) (c : Ctx) : Except String FmtTimes := do
  let times0 : PTimes :=
    { imsak := PF.num 5, fajr := PF.num 5, sunrise := PF.num 6, dhuhr := PF.num 12,
      asr := PF.num 13, sunset := PF.num 18, maghrib := PF.num 18, isha := PF.num 18 }
  let times ← (List.range numIterations).foldlM
    (fun ts _ => computePrayerTimes T c ts) times0
  let times ← adjustTimes c times
  let pMid ← Dict.get c.settings "midnight"
  let midnight :=
    if pMid = Param.str "Jafari" then
      times.sunset + timeDiff times.sunset times.fajr / PF.num 2
    else
      times.sunset + timeDiff times.sunset times.sunrise / PF.num 2
  let times9 : Times9 :=
    { imsak := times.imsak, fajr := times.fajr, sunrise := times.sunrise,
      dhuhr := times.dhuhr, asr := times.asr, sunset := times.sunset,
      maghrib := times.maghrib, isha := times.isha, midnight := midnight }
  let times9 ← tuneTimes c times9
  pure (modifyFormats c times9)

/-- The `date` argument of `getTimes`: a `datetime.date` object or a
`(year, month, day)` tuple (source lines 146-147). -/
inductive DateArg where
  | dateObj : ℤ → ℤ → ℤ → DateArg
  | tuple : ℤ → ℤ → ℤ → DateArg
deriving DecidableEq, Repr

/-- The attributes of one `PrayTimes` instance that `getTimes` reads or
writes.  `lat`, `lng`, `elv`, `timeZone`, `jDate` are `Option`s because a
freshly constructed instance does not carry them: the first `getTimes`
call creates them. -/
structure Inst where
  settings : Dict Param
  offset : Dict ℚ
  calcMethod : String
  timeFormat : String
  lat : Option ℚ
  lng : Option ℚ
  elv : Option ℚ
  timeZone : Option ℚ
  jDate : Option ℚ

/-- `PrayTimes.getTimes(date, coords, timezone, dst, format)` (source lines
140-150): returns the computed result together with the instance state as
it is after the call (the attribute assignments of lines 141-149 persist). -/
def getTimes (T : Trig) (s : Inst) (date : DateArg) (coords : ℚ × ℚ × Option ℚ)
    (timezone : ℚ) (dst : Bool) (format : Option String) :
    Except String FmtTimes × Inst :=
  let lat := coords.1
  let lng := coords.2.1
  let elv := match coords.2.2 with | some e => e | none => 0
  let timeFormat := match format with | some f => f | none => s.timeFormat
  let ymd : ℤ × ℤ × ℤ :=
    match date with
    | .dateObj y m d => (y, m, d)
    | .tuple y m d => (y, m, d)
  let timeZone := timezone + (if dst then 1 else 0)
  let jDate := julian ymd.1 ymd.2.1 ymd.2.2 - lng / (15 * 24)
  let c : Ctx :=
    { settings := s.settings, offset := s.offset, timeFormat := timeFormat,
      lat := lat, lng := lng, elv := elv, timeZone := timeZone, jDate := jDate }
  let s' : Inst :=
    { s with timeFormat := timeFormat, lat := some lat, lng := some lng,
             elv := some elv, timeZone := some timeZone, jDate := some jDate }
  (computeTimes T c, s')

/-- One entry of the method registry: display name and parameter
dictionary.  The parameters are kept as an ordered association list because
`__init__` iterates `params.items()` in insertion order. -/
structure MethodDef where
  displayName : String
  params : List (String × Param)
deriving DecidableEq, Repr

/-- The keys of `PrayTimes.timeNames` (source lines 27-37), in insertion
order. -/
def timeNameKeys : List String :=
  ["imsak", "fajr", "sunrise", "dhuhr", "asr", "sunset", "maghrib", "isha", "midnight"]

/-- `PrayTimes.methods` (source lines 40-65), in insertion order. -/
def initialMethods : List (String × MethodDef) :=
  [("MWL", ⟨"Muslim World League", [("fajr", .num 18), ("isha", .num 17)]⟩),
   ("ISNA", ⟨"Islamic Society of North America (ISNA)",
      [("fajr", .num 15), ("isha", .num 15)]⟩),
   ("Egypt", ⟨"Egyptian General Authority of Survey",
      [("fajr", .num 19.5), ("isha", .num 17.5)]⟩),
   ("Makkah", ⟨"Umm Al-Qura University, Makkah",
      [("fajr", .num 18.5), ("isha", .str "90 min")]⟩),
   ("Karachi", ⟨"University of Islamic Sciences, Karachi",
      [("fajr", .num 18), ("isha", .num 18)]⟩),
   ("Tehran", ⟨"Institute of Geophysics, University of Tehran",
      [("fajr", .num 17.7), ("isha", .num 14), ("maghrib", .num 4.5),
       ("midnight", .str "Jafari")]⟩),
   ("Jafari", ⟨"Shia Ithna-Ashari, Leva Institute, Qum",
      [("fajr", .num 16), ("isha", .num 14), ("maghrib", .num 4),
       ("midnight", .str "Jafari")]⟩),
   ("TN", ⟨"Tamil Nadu", [("fajr", .num 18), ("isha", .num 18)]⟩)]

/-- `PrayTimes.defaultParams` (source lines 68-70). -/
def defaultParams : List (String × Param) :=
  [("maghrib", .str "0 min"), ("midnight", .str "Standard")]

/-- The class-level mutable state.  In Python, `settings`, `offset` and
`methods` are class attributes holding dictionaries; instance code only
mutates these dict objects in place (`self.settings[k] = v`,
`self.settings.update(...)`, `self.offset[k] = v`,
`config['params'][k] = v`) and never rebinds the attribute names, so every
instance observes the same dictionaries. -/
structure ClassState where
  methods : List (String × MethodDef)
  settings : Dict Param
  offset : Dict ℚ

/-- The per-instance attributes created by attribute *assignment* on
`self` in `__init__` (`self.calcMethod = ...` rebinds the name on the
instance rather than mutating the class value). -/
structure InstAttrs where
  calcMethod : String
deriving DecidableEq, Repr

/-- The class attributes as they stand before any instance is constructed
(source lines 75-90). -/
def initialClassState : ClassState :=
  { methods := initialMethods,
    settings := Dict.ofList
      [("imsak", .str "20 min"), ("dhuhr", .str "15 min"),
       ("asr", .str "Standard"), ("highLats", .str "NightMiddle")],
    offset := fun _ => none }

/-- The defaults loop body of `__init__` (source lines 98-101): for each
`(name, value)` of `defaultParams`, add it to a method's params when the
key is absent (no stored value is Python `None` in this program). -/
def fillDefaultsList (ps : List (String × Param)) : List (String × Param) :=
  defaultParams.foldl (fun acc nv => if (acc.lookup nv.1).isSome then acc else acc ++ [nv]) ps

/-- The defaults loop applied to one registry entry. -/
def fillDefaults (m : MethodDef) : MethodDef :=
  { m with params := fillDefaultsList m.params }

/-- `PrayTimes.__init__(method)` (source lines 95-111).  The defaults loop
`for method, config in self.methods.items():` rebinds the name `method` on
every iteration, shadowing the constructor parameter; after the loop,
`method` holds the *last* registry key (insertion order), and only when the
registry is empty does the parameter value survive.  `self.methods[...]`
lookup can raise `KeyError` (modelled by `Except`), and the settings and
offset updates mutate the shared class dictionaries. -/
def PrayTimes.init (cs : ClassState) (method : String) :
    Except String (ClassState × InstAttrs) := do
  let methods := cs.methods.map (fun kv => (kv.1, fillDefaults kv.2))
  let method := ((methods.map Prod.fst).getLast? ).getD method
  let calcMethod := if (methods.lookup method).isSome then method else "MWL"
  let config ← match methods.lookup calcMethod with
    | some cfg => pure cfg
    | none => Except.error ("KeyError: " ++ calcMethod)
  let settings := cs.settings.update config.params
  let offset := timeNameKeys.foldl (fun o k => o.set k 0) cs.offset
  pure ({ methods := methods, settings := settings, offset := offset },
        { calcMethod := calcMethod })

/-- `PrayTimes.adjust(params)` (source lines 121-122): key-wise update of
the shared settings dictionary. -/
def adjust (cs : ClassState) (params : List (String × Param)) : ClassState :=
  { cs with settings := cs.settings.update params }

/-- `PrayTimes.setMethod(method)` (source lines 116-119): recognized names
adjust the settings and rebind `self.calcMethod`; unrecognized names do
nothing at all. -/
def setMethod (cs : ClassState) (inst : InstAttrs) (method : String) :
    ClassState × InstAttrs :=
  match cs.methods.lookup method with
  | some cfg => (adjust cs cfg.params, { calcMethod := method })
  | none => (cs, inst)

/-- The attribute names bound on the class or created on instances; `tune`
needs the name `offsets`, which is not among them. -/
def attrNames : List String :=
  ["timeNames", "methods", "defaultParams", "calcMethod", "settings",
   "timeFormat", "timeSuffixes", "invalidTime", "numIterations", "offset",
   "lat", "lng", "elv", "timeZone", "jDate"]

/-- `PrayTimes.tune(timeOffsets)` (source lines 124-125): the body is
`self.offsets.update(timeOffsets)`, but no attribute named `offsets`
exists on the instance or the class (the offset table is the attribute
`offset`), so the attribute lookup raises `AttributeError` before any
update can happen. -/
def tune (cs : ClassState) (timeOffsets : List (String × ℚ)) :
    Except String ClassState :=
  if "offsets" ∈ attrNames then
    Except.ok { cs with offset := timeOffsets.foldl (fun o p => o.set p.1 p.2) cs.offset }
  else
    Except.error "AttributeError: PrayTimes object has no attribute offsets"

/-- `PrayTimes.getSettings()` (source lines 130-131): returns the settings
dictionary the instance observes — the shared class dictionary, the
instance never holding one of its own. -/
def getSettings (cs : ClassState) (_inst : InstAttrs) : Dict Param :=
  cs.settings

/-- `PrayTimes.getOffsets()` (source lines 133-134). -/
def getOffsets (cs : ClassState) (_inst : InstAttrs) : Dict ℚ :=
  cs.offset

/-- `PrayTimes.getMethod()` (source lines 127-128). -/
def getMethod (_cs : ClassState) (inst : InstAttrs) : String :=
  inst.calcMethod

/-! ### Spec-side definitions

The following definitions are written from the specification's words, to be
compared with the source-derived definitions above. -/

/-- Night-portion fraction as the spec states it: 1/2 for `NightMiddle`
(the default), 1/7 for `OneSeventh`, `angle/60` for `AngleBased`. -/
def portionFraction (hl : Param) (angle : ℚ) : ℚ :=
  if hl = Param.str "OneSeventh" then 1 / 7
  else if hl = Param.str "AngleBased" then angle / 60
  else 1 / 2

/-- High-latitude adjustment as the spec states it: with a finite anchor
`b` and finite night duration `n`, if the event time is NaN or its
circular difference from the anchor exceeds `frac * n`, replace it with
`anchor ∓ frac * n` (minus for counter-clockwise events); otherwise leave
it unchanged. -/
def specAdjustHL (frac : ℚ) (time : PF) (b n : ℚ) (ccw : Bool) : PF :=
  let p := frac * n
  match time with
  | .nan => PF.num (if ccw then b - p else b + p)
  | .num t =>
      let d := if ccw then fixQ (b - t) 24 else fixQ (t - b) 24
      if p < d then PF.num (if ccw then b - p else b + p) else PF.num t

/-- Uniform shift of every event by `d` hours (the spec's "timezone −
longitude/15 hours is added uniformly to every event"). -/
def tzShift (d : ℚ) (t : PTimes) : PTimes :=
  { imsak := t.imsak + PF.num d, fajr := t.fajr + PF.num d,
    sunrise := t.sunrise + PF.num d, dhuhr := t.dhuhr + PF.num d,
    asr := t.asr + PF.num d, sunset := t.sunset + PF.num d,
    maghrib := t.maghrib + PF.num d, isha := t.isha + PF.num d }

/-- Minute-offset resolution as the spec states it: `imsak = fajr −
minutes/60`, `maghrib = sunset − minutes/60`, `isha = maghrib −
minutes/60`, the last one reading the already-resolved maghrib. -/
def specMinuteOffsets (pImsak pMaghrib pIsha : Param)
    (vImsak vMaghrib vIsha : ℚ) (t : PTimes) : PTimes :=
  let t := if isMin pImsak then { t with imsak := t.fajr - PF.num (vImsak / 60) } else t
  let t := if isMin pMaghrib then { t with maghrib := t.sunset - PF.num (vMaghrib / 60) } else t
  if isMin pIsha then { t with isha := t.maghrib - PF.num (vIsha / 60) } else t

/-- The final dhuhr minute offset of the spec's ordering. -/
def specDhuhrOffset (v : ℚ) (t : PTimes) : PTimes :=
  { t with dhuhr := t.dhuhr + PF.num (v / 60) }

/-! ### Concrete fixtures for witnesses and counterexamples -/

/-- A concrete, fully computable math library (all trigonometric fields
return 0); the claims proved against `Trig` hold for every library, so any
instance serves to evaluate them. -/
def zeroTrig : Trig :=
  { tsin := fun _ => PF.num 0, tcos := fun _ => PF.num 0, ttan := fun _ => PF.num 0,
    arcsin := fun _ => PF.num 0, arccos := fun _ => Except.ok (PF.num 0),
    arctan := fun _ => PF.num 0, arccot := fun _ => PF.num 0,
    arctan2 := fun _ _ => PF.num 0, sqrt := fun _ => 0 }

/-- Class state and instance attributes after `A = PrayTimes('MWL')` run
against the pristine class attributes. -/
def initA : ClassState × InstAttrs :=
  match PrayTimes.init initialClassState "MWL" with
  | .ok r => r
  | .error _ => (initialClassState, { calcMethod := "MWL" })

/-- Class state and instance attributes after a second construction
`B = PrayTimes('MWL')`. -/
def initB : ClassState × InstAttrs :=
  match PrayTimes.init initA.1 "MWL" with
  | .ok r => r
  | .error _ => (initA.1, { calcMethod := "MWL" })

/-- Class state after `B.adjust({'fajr': 99})`. -/
def afterAdjustB : ClassState :=
  adjust initB.1 [("fajr", Param.num 99)]

/-- A concrete `PrayTimes` instance as it stands after construction
against the pristine class state (24h format, no positional attributes
yet). -/
def testInst : Inst :=
  { settings := initA.1.settings, offset := initA.1.offset, calcMethod := initA.2.calcMethod,
    timeFormat := "24h", lat := none, lng := none, elv := none,
    timeZone := none, jDate := none }

/-- A concrete computation context for exercising `adjustTimes`. -/
def testCtx : Ctx :=
  { settings := initA.1.settings, offset := initA.1.offset, timeFormat := "24h",
    lat := 23 / 2, lng := 79, elv := 0, timeZone := 11 / 2, jDate := 2460000 }

/-- A concrete eight-event dictionary for exercising `adjustTimes`. -/
def testTimes : PTimes :=
  { imsak := PF.num 5, fajr := PF.num (21 / 4), sunrise := PF.num 6,
    dhuhr := PF.num 12, asr := PF.num (27 / 2), sunset := PF.nan,
    maghrib := PF.num (73 / 4), isha := PF.num 20 }

/-! ### Helper lemmas -/

/-- Updating a dictionary with a pair list leaves keys outside the list
unchanged. -/
theorem Dict.update_absent {α : Type} (p : List (String × α)) (m : Dict α)
    (k : String) (h : p.lookup k = none) : Dict.update m p k = m k := by
  induction p generalizing m with
  | nil => rfl
  | cons a t ih =>
      obtain ⟨a1, a2⟩ := a
      by_cases hk : k = a1
      · subst hk
        simp [List.lookup] at h
      · simp only [List.lookup, beq_false_of_ne hk] at h
        show Dict.update (m.set a1 a2) t k = m k
        rw [ih (m.set a1 a2) h]
        simp [Dict.set, hk]

/-- The unfolded form of `fixQ`. -/
theorem fixQ_def (a m : ℚ) :
    fixQ a m =
      if a - m * ((⌊a / m⌋ : ℤ) : ℚ) < 0
      then a - m * ((⌊a / m⌋ : ℤ) : ℚ) + m
      else a - m * ((⌊a / m⌋ : ℤ) : ℚ) := rfl

/-- `fixQ` lands in `[0, m)` for a positive modulus. -/
theorem fixQ_mem_Ico (a m : ℚ) (hm : 0 < m) : 0 ≤ fixQ a m ∧ fixQ a m < m := by
  have key : a - m * ((⌊a / m⌋ : ℤ) : ℚ) = m * Int.fract (a / m) := by
    rw [Int.fract, mul_sub, mul_div_cancel₀ a (ne_of_gt hm)]
  have h0 : 0 ≤ a - m * ((⌊a / m⌋ : ℤ) : ℚ) := by
    rw [key]; exact mul_nonneg hm.le (Int.fract_nonneg _)
  have h1 : a - m * ((⌊a / m⌋ : ℤ) : ℚ) < m := by
    rw [key]
    calc m * Int.fract (a / m) < m * 1 :=
          mul_lt_mul_of_pos_left (Int.fract_lt_one _) hm
      _ = m := mul_one m
  rw [fixQ_def, if_neg (not_lt.mpr h0)]
  exact ⟨h0, h1⟩

/-- `fixQ` is idempotent for a positive modulus. -/
theorem fixQ_idem (a m : ℚ) (hm : 0 < m) : fixQ (fixQ a m) m = fixQ a m := by
  obtain ⟨h0, h1⟩ := fixQ_mem_Ico a m hm
  have hfloor : ⌊fixQ a m / m⌋ = 0 := by
    rw [Int.floor_eq_zero_iff]
    exact Set.mem_Ico.mpr ⟨div_nonneg h0 hm.le, (div_lt_one hm).mpr h1⟩
  rw [fixQ_def (fixQ a m) m, hfloor]
  simp only [Int.cast_zero, mul_zero, sub_zero]
  rw [if_neg (not_lt.mpr h0)]

/-! ### Claims -/

/-- Claim C2 (code bug): `tune` can never merge anything — its body reads
`self.offsets`, an attribute that exists neither on the instance nor on
the class (the offset table is the attribute `offset`), so every call
raises `AttributeError` instead of performing the key-wise merge the
specification describes. -/
theorem tune_always_raises (cs : ClassState) (timeOffsets : List (String × ℚ)) :
    tune cs timeOffsets =
      Except.error "AttributeError: PrayTimes object has no attribute offsets" := rfl

/-- Claim C4 (code bug): constructing `PrayTimes` with an unrecognized
method name configures the calculator with `'TN'` — the last registry key,
because the defaults loop variable shadows the `method` parameter — not
with the documented `'MWL'` fallback; and `setMethod` with an unrecognized
name keeps the previous method (here `'TN'`), again not `'MWL'`. -/
theorem init_unknown_method_not_MWL :
    (PrayTimes.init initialClassState "NoSuchMethod").map (fun r => getMethod r.1 r.2) =
      Except.ok "TN"
    ∧ getMethod (setMethod initA.1 initA.2 "NoSuchMethod").1
        (setMethod initA.1 initA.2 "NoSuchMethod").2 = "TN" :=
  ⟨rfl, rfl⟩

/-- Claim C9: feeding a NaN time into `getFormattedTime` returns the fixed
invalid-time sentinel string `'-----'` under every output format (in
particular `'24h'`, `'12h'` and `'Float'`) and every suffix list — never a
numeric string or numeric value. -/
theorem getFormattedTime_nan_sentinel (format : String) (suffixes : List String) :
    getFormattedTime PF.nan format suffixes = FmtVal.str invalidTime := rfl

/-- Claim C10: calling `getTimes` with a `datetime.date` object yields
exactly the same result (and the same post-call instance state) as calling
it with the `(year, month, day)` tuple, all other arguments and instance
configuration being equal. -/
theorem getTimes_date_interface_equiv (T : Trig) (s : Inst) (y m d : ℤ)
    (coords : ℚ × ℚ × Option ℚ) (timezone : ℚ) (dst : Bool) (format : Option String) :
    getTimes T s (DateArg.dateObj y m d) coords timezone dst format =
      getTimes T s (DateArg.tuple y m d) coords timezone dst format := rfl

/-- Claim C5 (counterexample): the spec string `"."` has a non-numeric
leading token (`"."` itself, drawn from `[0-9.+-]`), yet `eval` does not
parse it to 0 — `float(".")` raises `ValueError`, so parsing is not total
over all strings. -/
theorem eval_dot_raises : eval (Param.str ".") = Except.error "ValueError" := rfl

/-- Claim C5 (amended): a spec string whose leading `[0-9.+-]` token is
empty parses to 0 without raising; only a nonempty leading token that is
not a valid float literal (such as `"."` or `"-"`) raises `ValueError`. -/
theorem eval_empty_token (s : String) (h : leadingToken s = "") :
    eval (Param.str s) = Except.ok 0 := by
  simp [eval, h]

/-- Witness for the amended claim C5 at the concrete spec `"Standard"`. -/
theorem eval_empty_token_witness :
    leadingToken "Standard" = "" ∧ eval (Param.str "Standard") = Except.ok 0 :=
  ⟨rfl, eval_empty_token "Standard" rfl⟩

/-- Claim C8: for a positive modulus `m`, `fix` on a finite value returns
a value in `[0, m)` and is idempotent, and NaN input is returned unchanged
(no exception is raised anywhere in `fix`). -/
theorem fix_range_idem_nan (a m : ℚ) (hm : 0 < m) :
    fix (PF.num a) m = PF.num (fixQ a m)
    ∧ 0 ≤ fixQ a m ∧ fixQ a m < m
    ∧ fix (fix (PF.num a) m) m = fix (PF.num a) m
    ∧ fix PF.nan m = PF.nan := by
  obtain ⟨h0, h1⟩ := fixQ_mem_Ico a m hm
  refine ⟨rfl, h0, h1, ?_, rfl⟩
  show PF.num (fixQ (fixQ a m) m) = PF.num (fixQ a m)
  rw [fixQ_idem a m hm]

/-- Witness for claim C8 at `a = 25`, `m = 24`. -/
theorem fix_range_idem_nan_witness :
    fix (PF.num 25) 24 = PF.num (fixQ 25 24)
    ∧ 0 ≤ fixQ 25 24 ∧ fixQ 25 24 < 24
    ∧ fix (fix (PF.num 25) 24) 24 = fix (PF.num 25) 24
    ∧ fix PF.nan 24 = PF.nan :=
  fix_range_idem_nan 25 24 (by decide)

/-- Claim C1 (counterexample): configuration is not isolated per instance.
With `A = PrayTimes('MWL')` then `B = PrayTimes('MWL')`, running
`B.adjust({'fajr': 99})` changes the Settings map `A` observes (its
`fajr` entry goes from 18 to 99): `settings` is a class-level dictionary
mutated in place, shared by every instance. -/
theorem adjust_on_B_changes_A_settings :
    getSettings afterAdjustB initA.2 "fajr" ≠ getSettings initB.1 initA.2 "fajr" := by
  decide

/-- Claim C1 (amended): the Settings map and the offset table are shared
class-level dictionaries, so `adjust` on any instance updates the map every
instance observes identically; keys outside the adjusted pairs keep their
values, and `adjust` leaves the offset table untouched. -/
theorem adjust_shared_keywise (cs : ClassState) (iA iB : InstAttrs)
    (p : List (String × Param)) (k : String) (h : p.lookup k = none) :
    getSettings (adjust cs p) iA = getSettings (adjust cs p) iB
    ∧ getSettings (adjust cs p) iA k = getSettings cs iA k
    ∧ getOffsets (adjust cs p) iA = getOffsets cs iA :=
  ⟨rfl, Dict.update_absent p cs.settings k h, rfl⟩

/-- Witness for the amended claim C1 at a concrete adjustment. -/
theorem adjust_shared_keywise_witness :
    getSettings (adjust initialClassState [("fajr", Param.num 99)]) { calcMethod := "TN" }
      = getSettings (adjust initialClassState [("fajr", Param.num 99)]) { calcMethod := "MWL" }
    ∧ getSettings (adjust initialClassState [("fajr", Param.num 99)]) { calcMethod := "TN" } "imsak"
      = getSettings initialClassState { calcMethod := "TN" } "imsak"
    ∧ getOffsets (adjust initialClassState [("fajr", Param.num 99)]) { calcMethod := "TN" }
      = getOffsets initialClassState { calcMethod := "TN" } :=
  adjust_shared_keywise initialClassState { calcMethod := "TN" } { calcMethod := "MWL" }
    [("fajr", Param.num 99)] "imsak" rfl

/-- Claim C3 (counterexample): per-call state does survive a `getTimes`
call — passing `format='12h'` to an instance configured for `'24h'`
overwrites the instance's active output time format, observable after the
call returns. -/
theorem getTimes_overwrites_timeFormat :
    ((getTimes zeroTrig testInst (DateArg.tuple 2024 6 21) (23 / 2, 79, none)
        (11 / 2) false (some "12h")).2).timeFormat ≠ testInst.timeFormat := by
  decide

/-- Claim C3 (amended): each `getTimes` call is a pure function of the
instance's Settings and offsets plus the call's arguments, and it leaves
the Settings map, the offset table and the calculation method unchanged;
but the active output time format after the call is the `format` argument
whenever one is supplied (and the call's positional attributes —
coordinates, timezone, julian date — also persist on the instance). -/
theorem getTimes_pure_and_frame (T : Trig) (s1 s2 : Inst) (date : DateArg)
    (coords : ℚ × ℚ × Option ℚ) (timezone : ℚ) (dst : Bool) (format : Option String)
    (hs : s1.settings = s2.settings) (ho : s1.offset = s2.offset)
    (hf : s1.timeFormat = s2.timeFormat) :
    (getTimes T s1 date coords timezone dst format).1
      = (getTimes T s2 date coords timezone dst format).1
    ∧ (getTimes T s1 date coords timezone dst format).2.settings = s1.settings
    ∧ (getTimes T s1 date coords timezone dst format).2.offset = s1.offset
    ∧ (getTimes T s1 date coords timezone dst format).2.calcMethod = s1.calcMethod
    ∧ (getTimes T s1 date coords timezone dst format).2.timeFormat
        = format.getD s1.timeFormat := by
  refine ⟨?_, rfl, rfl, rfl, ?_⟩
  · simp only [getTimes]
    rw [hs, ho, hf]
  · cases format <;> rfl

/-- Witness for the amended claim C3 at a concrete call. -/
theorem getTimes_pure_and_frame_witness :
    (getTimes zeroTrig testInst (DateArg.tuple 2024 6 21) (23 / 2, 79, none)
        (11 / 2) false (some "12h")).1
      = (getTimes zeroTrig testInst (DateArg.tuple 2024 6 21) (23 / 2, 79, none)
        (11 / 2) false (some "12h")).1
    ∧ (getTimes zeroTrig testInst (DateArg.tuple 2024 6 21) (23 / 2, 79, none)
        (11 / 2) false (some "12h")).2.settings = testInst.settings
    ∧ (getTimes zeroTrig testInst (DateArg.tuple 2024 6 21) (23 / 2, 79, none)
        (11 / 2) false (some "12h")).2.offset = testInst.offset
    ∧ (getTimes zeroTrig testInst (DateArg.tuple 2024 6 21) (23 / 2, 79, none)
        (11 / 2) false (some "12h")).2.calcMethod = testInst.calcMethod
    ∧ (getTimes zeroTrig testInst (DateArg.tuple 2024 6 21) (23 / 2, 79, none)
        (11 / 2) false (some "12h")).2.timeFormat = (some "12h").getD testInst.timeFormat :=
  getTimes_pure_and_frame zeroTrig testInst testInst (DateArg.tuple 2024 6 21)
    (23 / 2, 79, none) (11 / 2) false (some "12h") rfl rfl rfl

/-- Numeric addition on `PF`. -/
theorem PF.num_add (a b : ℚ) : PF.num a + PF.num b = PF.num (a + b) := rfl

/-- Numeric subtraction on `PF`. -/
theorem PF.num_sub (a b : ℚ) : PF.num a - PF.num b = PF.num (a - b) := rfl

/-- Numeric multiplication on `PF`. -/
theorem PF.num_mul (a b : ℚ) : PF.num a * PF.num b = PF.num (a * b) := rfl

/-- Numeric negation on `PF`. -/
theorem PF.num_neg (a : ℚ) : -PF.num a = PF.num (-a) := rfl

/-- `timeDiff` on two numbers is a circular difference. -/
theorem timeDiff_num (a b : ℚ) :
    timeDiff (PF.num a) (PF.num b) = PF.num (fixQ (b - a) 24) := rfl

/-- Claim C6 (counterexample): a corrected event need not be finite.  At
extreme latitudes `sunrise` itself is NaN; correcting a NaN `imsak`
against a NaN anchor (with the default `NightMiddle` policy and a NaN
night duration, exactly what `adjustHighLats` passes in that situation)
replaces the time with `anchor − portion`, which is NaN, not a finite
value. -/
theorem adjustHLTime_nan_anchor_not_finite :
    adjustHLTime (Param.str "NightMiddle") PF.nan PF.nan 18 PF.nan true = PF.nan
    ∧ PF.isnan (adjustHLTime (Param.str "NightMiddle") PF.nan PF.nan 18 PF.nan true)
        = true := ⟨rfl, rfl⟩

/-- Claim C6 (amended): for each of the three high-latitude policies, when
the anchor `b` and the night duration `n` are finite, `adjustHLTime`
behaves exactly as the spec states: if the event time is NaN or its
circular difference from the anchor exceeds `portion·night` — with portion
1/2 for `NightMiddle`, 1/7 for `OneSeventh`, `angle/60` for `AngleBased` —
the time becomes `anchor ∓ portion·night` (minus for the counter-clockwise
events), otherwise it is unchanged; and every corrected event is then
finite. -/
theorem adjustHLTime_matches_spec (hl : Param) (time : PF) (b n angle : ℚ)
    (ccw : Bool)
    (hhl : hl = Param.str "NightMiddle" ∨ hl = Param.str "OneSeventh"
      ∨ hl = Param.str "AngleBased") :
    adjustHLTime hl time (PF.num b) angle (PF.num n) ccw
      = specAdjustHL (portionFraction hl angle) time b n ccw
    ∧ (PF.isnan time = true →
        PF.isnan (adjustHLTime hl time (PF.num b) angle (PF.num n) ccw) = false) := by
  have hport : nightPortion hl angle (PF.num n)
      = PF.num (portionFraction hl angle * n) := by
    rcases hhl with h | h | h <;> subst h
    · rfl
    · rfl
    · show PF.num (1 / 60 * angle) * PF.num n
        = PF.num (portionFraction (Param.str "AngleBased") angle * n)
      rw [PF.num_mul]
      have : (1 : ℚ) / 60 * angle = portionFraction (Param.str "AngleBased") angle := by
        show (1 : ℚ) / 60 * angle = angle / 60
        ring
      rw [this]
  have hmain : adjustHLTime hl time (PF.num b) angle (PF.num n) ccw
      = specAdjustHL (portionFraction hl angle) time b n ccw := by
    cases time with
    | nan =>
        simp only [adjustHLTime, hport, specAdjustHL, PF.isnan, Bool.true_or, if_true]
        cases ccw <;>
          simp [PF.num_neg, PF.num_add, sub_eq_add_neg]
    | num t =>
        simp only [adjustHLTime, hport, specAdjustHL, PF.isnan, Bool.false_or]
        cases ccw with
        | true =>
            simp only [if_true, timeDiff_num, PF.gt, decide_eq_true_eq]
            by_cases hpd : portionFraction hl angle * n < fixQ (b - t) 24 <;>
              simp [hpd, PF.num_neg, PF.num_add, sub_eq_add_neg]
        | false =>
            simp only [if_false, timeDiff_num, PF.gt, decide_eq_true_eq]
            by_cases hpd : portionFraction hl angle * n < fixQ (t - b) 24 <;>
              simp [hpd, PF.num_add]
  refine ⟨hmain, ?_⟩
  intro ht
  cases time with
  | num t => simp [PF.isnan] at ht
  | nan => rw [hmain]; rfl

/-- Witness for the amended claim C6 at a concrete corrected event. -/
theorem adjustHLTime_matches_spec_witness :
    adjustHLTime (Param.str "OneSeventh") PF.nan (PF.num 18) 18 (PF.num 10) false
      = specAdjustHL (portionFraction (Param.str "OneSeventh") 18) PF.nan 18 10 false
    ∧ (PF.isnan PF.nan = true →
        PF.isnan (adjustHLTime (Param.str "OneSeventh") PF.nan (PF.num 18) 18
          (PF.num 10) false) = false) :=
  adjustHLTime_matches_spec (Param.str "OneSeventh") PF.nan 18 10 18 false
    (Or.inr (Or.inl rfl))

/-- Monadic bind on a successful `Except` computation. -/
theorem exceptBind_ok {ε α β : Type} (a : α) (f : α → Except ε β) :
    (Except.ok a : Except ε α) >>= f = f a := rfl

/-- Monadic bind on a failed `Except` computation. -/
theorem exceptBind_error {ε α β : Type} (e : ε) (f : α → Except ε β) :
    (Except.error e : Except ε α) >>= f = Except.error e := rfl

/-- `pure` on `Except` is `ok`. -/
theorem exceptPure {ε α : Type} (a : α) : (pure a : Except ε α) = Except.ok a := rfl

/-- `Except.map` on a success. -/
theorem exceptMap_ok {ε α β : Type} (f : α → β) (a : α) :
    Except.map f (Except.ok a : Except ε α) = Except.ok (f a) := rfl

/-- `Except.map` on a failure. -/
theorem exceptMap_error {ε α β : Type} (f : α → β) (e : ε) :
    Except.map f (Except.error e : Except ε α) = Except.error e := rfl

/-- The uniform-shift record written out field by field is `tzShift`. -/
theorem tzShift_eq (d : ℚ) (t : PTimes) :
    ({ imsak := t.imsak + PF.num d, fajr := t.fajr + PF.num d,
       sunrise := t.sunrise + PF.num d, dhuhr := t.dhuhr + PF.num d,
       asr := t.asr + PF.num d, sunset := t.sunset + PF.num d,
       maghrib := t.maghrib + PF.num d, isha := t.isha + PF.num d } : PTimes)
      = tzShift d t := rfl

/-- Claim C7: the post-iteration adjustment applies, in order: the uniform
timezone shift `timezone − longitude/15` to every event; the high-latitude
correction when `highLats` is enabled; the minute-offset resolutions
`imsak = fajr − min/60`, `maghrib = sunset − min/60`,
`isha = maghrib − min/60` (against the already-resolved maghrib); and
finally the dhuhr minute offset. -/
theorem adjustTimes_phase_order (c : Ctx) (times : PTimes)
    (pHigh pImsak pMaghrib pIsha pDhuhr : Param)
    (vImsak vMaghrib vIsha vDhuhr : ℚ)
    (hHigh : c.settings "highLats" = some pHigh)
    (hImsak : c.settings "imsak" = some pImsak)
    (hvImsak : eval pImsak = Except.ok vImsak)
    (hMaghrib : c.settings "maghrib" = some pMaghrib)
    (hvMaghrib : eval pMaghrib = Except.ok vMaghrib)
    (hIsha : c.settings "isha" = some pIsha)
    (hvIsha : eval pIsha = Except.ok vIsha)
    (hDhuhr : c.settings "dhuhr" = some pDhuhr)
    (hvDhuhr : eval pDhuhr = Except.ok vDhuhr) :
    adjustTimes c times =
      Except.map
        (fun ts => specDhuhrOffset vDhuhr
          (specMinuteOffsets pImsak pMaghrib pIsha vImsak vMaghrib vIsha ts))
        (if pHigh ≠ Param.str "None"
         then adjustHighLats c (tzShift (c.timeZone - c.lng / 15) times)
         else Except.ok (tzShift (c.timeZone - c.lng / 15) times)) := by
  have hg1 : Dict.get c.settings "highLats" = Except.ok pHigh := by
    simp [Dict.get, hHigh]
  have hg2 : Dict.get c.settings "imsak" = Except.ok pImsak := by
    simp [Dict.get, hImsak]
  have hg3 : Dict.get c.settings "maghrib" = Except.ok pMaghrib := by
    simp [Dict.get, hMaghrib]
  have hg4 : Dict.get c.settings "isha" = Except.ok pIsha := by
    simp [Dict.get, hIsha]
  have hg5 : Dict.get c.settings "dhuhr" = Except.ok pDhuhr := by
    simp [Dict.get, hDhuhr]
  by_cases hN : pHigh = Param.str "None"
  · simp only [adjustTimes, hg1, hg2, hg3, hg4, hg5, hvImsak, hvMaghrib, hvIsha,
      hvDhuhr, exceptBind_ok, exceptPure, tzShift_eq, hN, ne_eq, not_true_eq_false,
      if_false, exceptMap_ok]
    by_cases hI : isMin pImsak <;> by_cases hM : isMin pMaghrib <;>
      by_cases hS : isMin pIsha <;>
        simp [hI, hM, hS, specMinuteOffsets, specDhuhrOffset, exceptBind_ok,
          exceptPure, hvImsak, hvMaghrib, hvIsha, hvDhuhr]
  · simp only [adjustTimes, hg1, hg2, hg3, hg4, hg5, hvImsak, hvMaghrib, hvIsha,
      hvDhuhr, exceptBind_ok, exceptPure, tzShift_eq, hN, ne_eq,
      not_false_eq_true, if_true]
    cases hA : adjustHighLats c (tzShift (c.timeZone - c.lng / 15) times) with
    | error e => simp [exceptBind_error, exceptMap_error]
    | ok ts =>
        simp only [exceptBind_ok, exceptMap_ok]
        by_cases hI : isMin pImsak <;> by_cases hM : isMin pMaghrib <;>
          by_cases hS : isMin pIsha <;>
            simp [hI, hM, hS, specMinuteOffsets, specDhuhrOffset, exceptBind_ok,
              exceptPure, hvImsak, hvMaghrib, hvIsha, hvDhuhr]

/-- Witness for claim C7 at the concrete post-construction settings
(imsak `'20 min'`, maghrib `'0 min'`, isha 18, dhuhr `'15 min'`,
highLats `'NightMiddle'`). -/
theorem adjustTimes_phase_order_witness :
    adjustTimes testCtx testTimes =
      Except.map
        (fun ts => specDhuhrOffset 15
          (specMinuteOffsets (Param.str "20 min") (Param.str "0 min") (Param.num 18)
            20 0 18 ts))
        (if Param.str "NightMiddle" ≠ Param.str "None"
         then adjustHighLats testCtx (tzShift (testCtx.timeZone - testCtx.lng / 15) testTimes)
         else Except.ok (tzShift (testCtx.timeZone - testCtx.lng / 15) testTimes)) :=
  adjustTimes_phase_order testCtx testTimes (Param.str "NightMiddle")
    (Param.str "20 min") (Param.str "0 min") (Param.num 18) (Param.str "15 min")
    20 0 18 15 rfl rfl rfl rfl rfl rfl rfl rfl rfl

end PrayerTimes
